import Mathlib

/-!
Shallow embedding of the task-management backend's authorization and
workflow logic.

Conventions of the embedding:
* Django model instances compare equal iff their primary keys are equal, so
  users, teams and projects are identified by their `id` (a `Nat`) and every
  `a == b` between model instances in the source becomes an `id` comparison.
* `ForeignKey(..., null=True)` fields (`Task.assigned_to`) become `Option Nat`;
  `user == self.assigned_to` is `False` in Python when `assigned_to` is
  `None`, mirrored by matching on the option.
* `Team.members` (a many-to-many) becomes the list of member ids;
  `team.is_member(user)` is `members.filter(id=user.id).exists()`, i.e. list
  membership of the id.
* Timestamps (`timezone.now()`) become opaque `Nat` instants supplied by the
  caller; `DateTimeField(null=True)` becomes `Option Nat`.
-/

deriving instance DecidableEq for Except

namespace Backend

/-- `services/users/models.py`, `class Role(models.TextChoices)`. -/
inductive Role where
  | admin
  | manager
  | employee
deriving DecidableEq, Repr

/-- `services/users/models.py`, `class User`: the fields the authorization
logic reads (`id` is the Django primary key, `role` the role field). -/
structure User where
  id : Nat
  role : Role
deriving DecidableEq, Repr

/-- `User.has_role(role_name)`: `self.role == role_name`. -/
def User.has_role (u : User) (r : Role) : Bool :=
  u.role == r

/-- `services/teams/models.py`, `class Team`: the fields the authorization
logic reads. `manager` is a non-nullable foreign key, `memberIds` the ids of
the rows of the `members` many-to-many relation. -/
structure Team where
  id : Nat
  managerId : Nat
  memberIds : List Nat
deriving DecidableEq, Repr

/-- `Team.is_member(user)`: `self.members.filter(id=user.id).exists()`. -/
def Team.is_member (t : Team) (u : User) : Bool :=
  t.memberIds.contains u.id

/-- `Team.is_manager(user)`: `self.manager == user`. -/
def Team.is_manager (t : Team) (u : User) : Bool :=
  t.managerId == u.id

/-- `Services/projects/models.py`, `class Project`: the fields the task
authorization logic reads (`manager` is a non-nullable foreign key). -/
structure Project where
  id : Nat
  managerId : Nat
deriving DecidableEq, Repr

/-- `services/tasks/models.py`, `STATUS_CHOICES` of `class Task`. -/
inductive TaskStatus where
  | todo
  | in_progress
  | review
  | completed
  | cancelled
deriving DecidableEq, Repr, Fintype

/-- The Python string of each task status (the dictionary keys / choice
values of the source). -/
def TaskStatus.name : TaskStatus → String
  | .todo => "todo"
  | .in_progress => "in_progress"
  | .review => "review"
  | .completed => "completed"
  | .cancelled => "cancelled"

/-- `services/projects/models.py`, `STATUS_CHOICES` of `class Project`. -/
inductive ProjectStatus where
  | planning
  | active
  | on_hold
  | completed
  | cancelled
deriving DecidableEq, Repr, Fintype

/-- The Python string of each project status. -/
def ProjectStatus.name : ProjectStatus → String
  | .planning => "planning"
  | .active => "active"
  | .on_hold => "on_hold"
  | .completed => "completed"
  | .cancelled => "cancelled"

/-- The `valid_transitions` dictionary of
`TaskStatusUpdateSerializer.validate_status` (`Services/tasks/serializers.py`). -/
def taskValidTransitions : TaskStatus → List TaskStatus
  | .todo => [.in_progress, .cancelled]
  | .in_progress => [.review, .completed, .cancelled]
  | .review => [.in_progress, .completed, .cancelled]
  | .completed => []
  | .cancelled => []

/-- The `valid_transitions` dictionary of
`ProjectStatusUpdateSerializer.validate_status`
(`services/projects/serializers.py`). -/
def projectValidTransitions : ProjectStatus → List ProjectStatus
  | .planning => [.active, .cancelled]
  | .active => [.on_hold, .completed, .cancelled]
  | .on_hold => [.active, .cancelled]
  | .completed => []
  | .cancelled => []

/-- `TaskStatusUpdateSerializer.validate_status(value)` with an existing
instance: accept when `value` is in `valid_transitions[current]`, otherwise
raise `ValidationError(f"Cannot transition from {current} to {value}.")`. -/
def TaskStatusUpdateSerializer.validate_status (current value : TaskStatus) :
    Except String TaskStatus :=
  if (taskValidTransitions current).contains value then Except.ok value
  else Except.error
    ("Cannot transition from " ++ current.name ++ " to " ++ value.name ++ ".")

/-- `ProjectStatusUpdateSerializer.validate_status(value)` with an existing
instance, same shape as the task version. -/
def ProjectStatusUpdateSerializer.validate_status (current value : ProjectStatus) :
    Except String ProjectStatus :=
  if (projectValidTransitions current).contains value then Except.ok value
  else Except.error
    ("Cannot transition from " ++ current.name ++ " to " ++ value.name ++ ".")

/-- `services/tasks/models.py`, `class Task`: the fields read by
`can_be_accessed_by`, `can_be_edited_by`, the list views and the status
serializer. `assigned_to` is nullable (`SET_NULL`), `created_by`, `team` and
`project` are non-nullable foreign keys. -/
structure Task where
  id : Nat
  project : Project
  team : Team
  assignedToId : Option Nat
  createdById : Nat
  status : TaskStatus
  is_public : Bool
  startedAt : Option Nat
  completedAt : Option Nat
deriving DecidableEq, Repr

/-- `user == self.assigned_to` in Python: `False` when `assigned_to` is
`None`, primary-key equality otherwise. -/
def Task.isAssignee (t : Task) (u : User) : Bool :=
  match t.assignedToId with
  | some a => u.id == a
  | none => false

/-- `Task.can_be_accessed_by(user)` (`services/tasks/models.py`), the chain of
early returns of the source in order: admin, creator, assignee, team manager,
project manager, public task + team member, final `return False`. -/
def Task.can_be_accessed_by (t : Task) (user : User) : Bool :=
  if user.has_role Role.admin then true
  else if user.id == t.createdById then true
  else if t.isAssignee user then true
  else if user.id == t.team.managerId then true
  else if user.id == t.project.managerId then true
  else if t.is_public && t.team.is_member user then true
  else false

/-- `Task.can_be_edited_by(user)` (`services/tasks/models.py`): the same chain
of early returns as `can_be_accessed_by` minus the public-task clause. -/
def Task.can_be_edited_by (t : Task) (user : User) : Bool :=
  if user.has_role Role.admin then true
  else if user.id == t.createdById then true
  else if t.isAssignee user then true
  else if user.id == t.team.managerId then true
  else if user.id == t.project.managerId then true
  else false

/-- `TaskListView.get_queryset` (`Services/tasks/views.py`) as a per-row
membership predicate: admin sees all; a manager's queryset is
`Q(created_by=user) | Q(assigned_to=user) | Q(team__manager=user) |
Q(project__manager=user) | Q(team__members=user)`; everyone else (employee)
gets `Q(assigned_to=user) | Q(created_by=user)` AND `Q(team__members=user)`. -/
def TaskListView.get_queryset_mem (user : User) (t : Task) : Bool :=
  if user.has_role Role.admin then true
  else if user.has_role Role.manager then
    (t.createdById == user.id || t.isAssignee user ||
     t.team.managerId == user.id || t.project.managerId == user.id ||
     t.team.is_member user)
  else
    ((t.isAssignee user || t.createdById == user.id) && t.team.is_member user)

/-- `MyTasksView.get_queryset` (`Services/tasks/views.py`):
`Task.objects.filter(assigned_to=self.request.user)`. -/
def MyTasksView.get_queryset_mem (user : User) (t : Task) : Bool :=
  t.assignedToId == some user.id

/-- `CreatedTasksView.get_queryset` (`Services/tasks/views.py`):
`Task.objects.filter(created_by=self.request.user)`. -/
def CreatedTasksView.get_queryset_mem (user : User) (t : Task) : Bool :=
  t.createdById == user.id

/-- C2 helper: the right-hand side of the spec's `canAccessTask` clause list. -/
def canAccessTaskSpec (u : User) (t : Task) : Prop :=
  u.role = Role.admin ∨ u.id = t.createdById ∨ t.assignedToId = some u.id ∨
  u.id = t.team.managerId ∨ u.id = t.project.managerId ∨
  (t.is_public = true ∧ t.team.is_member u = true)

/-- The spec's `canEditTask` clause list: `canAccessTask` minus the
public-visibility clause. -/
def canEditTaskSpec (u : User) (t : Task) : Prop :=
  u.role = Role.admin ∨ u.id = t.createdById ∨ t.assignedToId = some u.id ∨
  u.id = t.team.managerId ∨ u.id = t.project.managerId

/-- `TaskStatusUpdateSerializer.update(instance, validated_data)`
(`Services/tasks/serializers.py`): writes the new status; sets
`started_at = timezone.now()` when the new status is `in_progress` and the
instance's status is not already `in_progress`; sets
`completed_at = timezone.now()` when the new status is `completed` and the
instance's status is not already `completed`. `now` is the clock instant. -/
def TaskStatusUpdateSerializer.update (t : Task) (newStatus : TaskStatus)
    (now : Nat) : Task :=
  ⟨t.id, t.project, t.team, t.assignedToId, t.createdById, newStatus, t.is_public,
   (if newStatus == TaskStatus.in_progress && t.status != TaskStatus.in_progress
    then some now else t.startedAt),
   (if newStatus == TaskStatus.completed && t.status != TaskStatus.completed
    then some now else t.completedAt)⟩

/-- The status-and-completion-date state of a project row, the fields
`ProjectStatusUpdateSerializer` touches (`status`, `completed_date`). -/
structure ProjectState where
  status : ProjectStatus
  completedDate : Option Nat
deriving DecidableEq, Repr

/-- `ProjectStatusUpdateSerializer.update(instance, validated_data)`
(`services/projects/serializers.py`): writes the new status and sets
`completed_date = timezone.now().date()` when the new status is `completed`
and the instance's status is not already `completed`. -/
def ProjectStatusUpdateSerializer.update (p : ProjectState)
    (newStatus : ProjectStatus) (now : Nat) : ProjectState :=
  ⟨newStatus,
   (if newStatus == ProjectStatus.completed && p.status != ProjectStatus.completed
    then some now else p.completedDate)⟩

/-- One PATCH of `TaskStatusUpdateView` on the workflow state: run
`validate_status` against the instance's current status and, when it
accepts, apply `update`; a rejected request leaves nothing to save. -/
def taskStatusStep (t : Task) (value : TaskStatus) (now : Nat) : Option Task :=
  match TaskStatusUpdateSerializer.validate_status t.status value with
  | Except.ok _ => some (TaskStatusUpdateSerializer.update t value now)
  | Except.error _ => none

/-- One PATCH of the project status endpoint on the project state. -/
def projectStatusStep (p : ProjectState) (value : ProjectStatus) (now : Nat) :
    Option ProjectState :=
  match ProjectStatusUpdateSerializer.validate_status p.status value with
  | Except.ok _ => some (ProjectStatusUpdateSerializer.update p value now)
  | Except.error _ => none

/-- Run a sequence of status requests `(value, clock)`; `none` as soon as one
request is rejected (so `some` means the whole sequence was accepted). -/
def runTaskStatusRequests (t : Task) : List (TaskStatus × Nat) → Option Task
  | [] => some t
  | (v, now) :: rest =>
    match taskStatusStep t v now with
    | some t2 => runTaskStatusRequests t2 rest
    | none => none

/-- Number of times the `update` method assigns `started_at` (the condition
`new_status == 'in_progress' and instance.status != 'in_progress'` fires)
along a sequence of accepted requests; counting stops at a rejected one. -/
def startedAtWrites (t : Task) : List (TaskStatus × Nat) → Nat
  | [] => 0
  | (v, now) :: rest =>
    match taskStatusStep t v now with
    | some t2 =>
      (if v == TaskStatus.in_progress && t.status != TaskStatus.in_progress
       then 1 else 0) + startedAtWrites t2 rest
    | none => 0

/-- `UpdateUserRoleView.patch` (`services/users/views.py`) for a
syntactically valid role, given that `IsAdminUser` has already been applied
as the view's permission class: returns whether the update is performed
together with the target's resulting role (unchanged on every denial).
The guard `request.user == user and request.user.role == 'admin' and
new_role != 'admin'` is the self-demotion check. -/
def UpdateUserRoleView.patch (actor target : User) (newRole : Role) :
    Bool × Role :=
  if !(actor.has_role Role.admin) then (false, target.role)
  else if actor.id == target.id && actor.role == Role.admin && newRole != Role.admin
  then (false, target.role)
  else (true, newRole)

/-- `TaskDetailSerializer.validate_assigned_to_id(value)`
(`Services/tasks/serializers.py`) with an existing task instance: reject when
the requester is an employee and `value` is neither the requester nor the
current assignee; then reject when the instance's team does not have `value`
as a member; otherwise accept. `value = none` (clearing the assignment)
skips both checks. -/
def TaskDetailSerializer.validate_assigned_to_id (requestUser : User)
    (t : Task) (value : Option User) : Bool :=
  match value with
  | some v =>
    if requestUser.has_role Role.employee &&
        (v.id != requestUser.id &&
         !(match t.assignedToId with | some a => v.id == a | none => false))
    then false
    else t.team.is_member v
  | none => true

/-- `TaskCreateSerializer.validate_assigned_to_id(value)`
(`Services/tasks/serializers.py`): reject when the requester is an employee
and `value` is not the requester; then, when a `team_id` was supplied and
names an existing team, reject a `value` who is not a member of it — a
missing `team_id` or a `Team.DoesNotExist` silently skips the membership
check (`except Team.DoesNotExist: pass`). -/
def TaskCreateSerializer.validate_assigned_to_id (requestUser : User)
    (team : Option Team) (value : Option User) : Bool :=
  match value with
  | some v =>
    if requestUser.has_role Role.employee && v.id != requestUser.id
    then false
    else
      match team with
      | some tm => tm.is_member v
      | none => true
  | none => true

/-- The view `action` strings `RoleBasedPermission` dispatches on;
`patchAction` is the source's `'partial_update'`, `noAction` a view without
an `action` attribute (`getattr(view, 'action', None)`). -/
inductive ViewAction where
  | listAction
  | retrieveAction
  | createAction
  | updateAction
  | patchAction
  | destroyAction
  | noAction
deriving DecidableEq, Repr, Fintype

/-- The generic object the permission class inspects with `hasattr`:
`userId` is `obj.user`'s id when the attribute exists,
`userProfileManagerId` the id of `obj.user.profile.manager` when that chain
exists, `createdById`/`assignedToId` likewise (`assigned_to` itself being
nullable), `team` the value of `obj.team` when present, and `selfId` the
object's own id when the object is a user (`obj == request.user`). -/
structure PermObject where
  userId : Option Nat
  userProfileManagerId : Option Nat
  createdById : Option Nat
  assignedToId : Option (Option Nat)
  team : Option Team
  selfId : Option Nat
deriving DecidableEq, Repr

/-- `RoleBasedPermission.has_object_permission`
(`src/services/users/permissions.py`) for an authenticated requester:
admins pass; an employee (who is not a manager) with a `retrieve`, `update`
or `partial_update` action is checked against the ownership attributes
`user`, `created_by`, `assigned_to`, falling back to `obj == request.user`;
a manager is checked against `obj.user` (or their profile manager) and
`obj.team.manager`; every remaining case reaches the final `return True`. -/
def RoleBasedPermission.has_object_permission (u : User) (action : ViewAction)
    (obj : PermObject) : Bool :=
  if u.has_role Role.admin then true
  else if u.has_role Role.employee && !(u.has_role Role.manager) &&
      (action == ViewAction.retrieveAction || action == ViewAction.updateAction ||
       action == ViewAction.patchAction) then
    match obj.userId with
    | some i => i == u.id
    | none =>
      match obj.createdById with
      | some i => i == u.id
      | none =>
        match obj.assignedToId with
        | some (some i) => i == u.id
        | some none => false
        | none =>
          match obj.selfId with
          | some i => i == u.id
          | none => false
  else if u.has_role Role.manager then
    match obj.userId with
    | some i =>
      i == u.id ||
        (match obj.userProfileManagerId with
         | some m => m == u.id
         | none => false)
    | none =>
      match obj.team with
      | some tm => tm.managerId == u.id
      | none => true
  else true

/-- Characterization of the access-evaluator chain of early returns as a
disjunction (shared helper). -/
theorem can_be_accessed_by_iff (u : User) (t : Task) :
    t.can_be_accessed_by u = true ↔ canAccessTaskSpec u t := by
  unfold Task.can_be_accessed_by canAccessTaskSpec User.has_role Task.isAssignee
  cases h : t.assignedToId <;>
    split_ifs <;>
    simp_all [Team.is_member, beq_iff_eq] <;>
    tauto

/-- Characterization of the edit-evaluator chain of early returns as a
disjunction (shared helper). -/
theorem can_be_edited_by_iff (u : User) (t : Task) :
    t.can_be_edited_by u = true ↔ canEditTaskSpec u t := by
  unfold Task.can_be_edited_by canEditTaskSpec User.has_role Task.isAssignee
  cases h : t.assignedToId <;>
    split_ifs <;>
    simp_all [beq_iff_eq] <;>
    tauto

/-- Characterization of the task listing filter per role (shared helper). -/
theorem get_queryset_mem_iff (u : User) (t : Task) :
    TaskListView.get_queryset_mem u t = true ↔
      (u.role = Role.admin ∨
       (u.role = Role.manager ∧
         (t.createdById = u.id ∨ t.assignedToId = some u.id ∨
          t.team.managerId = u.id ∨ t.project.managerId = u.id ∨
          t.team.is_member u = true)) ∨
       (u.role = Role.employee ∧
         (t.assignedToId = some u.id ∨ t.createdById = u.id) ∧
         t.team.is_member u = true)) := by
  unfold TaskListView.get_queryset_mem User.has_role Task.isAssignee
  cases hr : u.role <;> cases h : t.assignedToId <;>
    split_ifs <;>
    simp_all [beq_iff_eq] <;>
    tauto

/-- C2: `Task.can_be_accessed_by` returns `true` exactly when the actor is an
admin, the creator, the assignee, the team manager, the project manager, or
the task is public and the actor a team member; in every other case it
returns `false`. -/
theorem can_be_accessed_by_correct (u : User) (t : Task) :
    t.can_be_accessed_by u = true ↔ canAccessTaskSpec u t :=
  can_be_accessed_by_iff u t

/-- C3: `Task.can_be_edited_by` is `can_be_accessed_by` without the
public-visibility clause; edit permission implies access permission; and a
team member of a public task who matches none of the edit clauses can read
but not edit the task. -/
theorem can_be_edited_by_correct (u : User) (t : Task) :
    (t.can_be_edited_by u = true ↔ canEditTaskSpec u t) ∧
    (t.can_be_edited_by u = true → t.can_be_accessed_by u = true) ∧
    (t.is_public = true → t.team.is_member u = true → ¬ canEditTaskSpec u t →
      t.can_be_accessed_by u = true ∧ t.can_be_edited_by u = false) := by
  refine ⟨can_be_edited_by_iff u t, ?_, ?_⟩
  · intro h
    rw [can_be_accessed_by_iff]
    rw [can_be_edited_by_iff] at h
    unfold canAccessTaskSpec
    unfold canEditTaskSpec at h
    tauto
  · intro hpub hmem hne
    constructor
    · rw [can_be_accessed_by_iff]
      unfold canAccessTaskSpec
      tauto
    · rcases h : t.can_be_edited_by u with _ | _
      · rfl
      · exact absurd ((can_be_edited_by_iff u t).mp h) hne

/-- C3 witness: employee 5 is a team member of public task `t`, is not
creator, assignee or a manager, and gets read access without edit access. -/
theorem can_be_edited_by_correct_witness :
    (Task.can_be_accessed_by ⟨1, ⟨20, 98⟩, ⟨10, 99, [5]⟩, none, 7, .todo, true, none, none⟩
        ⟨5, .employee⟩ = true) ∧
    (Task.can_be_edited_by ⟨1, ⟨20, 98⟩, ⟨10, 99, [5]⟩, none, 7, .todo, true, none, none⟩
        ⟨5, .employee⟩ = false) :=
  (can_be_edited_by_correct ⟨5, .employee⟩
      ⟨1, ⟨20, 98⟩, ⟨10, 99, [5]⟩, none, 7, .todo, true, none, none⟩).2.2
    rfl rfl (by unfold canEditTaskSpec ; decide)

/-- C1 counterexample: user 2 is a manager who is merely a member of team 10
(managed by user 99) and the task is not public; the listing filter's manager
branch includes the task through `Q(team__members=user)`, but the access
evaluator denies it (not admin, creator, assignee, team or project manager,
and the task is not public).  So the listing and the evaluator disagree. -/
theorem get_queryset_vs_evaluator_counterexample :
    (TaskListView.get_queryset_mem ⟨2, .manager⟩
        ⟨1, ⟨20, 98⟩, ⟨10, 99, [2]⟩, none, 97, .todo, false, none, none⟩ = true) ∧
    (Task.can_be_accessed_by
        ⟨1, ⟨20, 98⟩, ⟨10, 99, [2]⟩, none, 97, .todo, false, none, none⟩
        ⟨2, .manager⟩ = false) :=
  ⟨rfl, rfl⟩

/-- C1 amended: the listing filter agrees with the access evaluator for
admins; for managers the listing contains every task the evaluator allows
(but may contain more, as the counterexample shows); for employees every
listed task is allowed by the evaluator (but the listing may omit allowed
tasks, e.g. public tasks of teams the employee merely belongs to). -/
theorem get_queryset_vs_evaluator_amended (u : User) (t : Task) :
    (u.role = Role.admin →
      (TaskListView.get_queryset_mem u t = true ↔ t.can_be_accessed_by u = true)) ∧
    (u.role = Role.manager → t.can_be_accessed_by u = true →
      TaskListView.get_queryset_mem u t = true) ∧
    (u.role = Role.employee → TaskListView.get_queryset_mem u t = true →
      t.can_be_accessed_by u = true) := by
  refine ⟨?_, ?_, ?_⟩
  · intro hr
    rw [get_queryset_mem_iff, can_be_accessed_by_iff]
    unfold canAccessTaskSpec
    tauto
  · intro hr hacc
    rw [can_be_accessed_by_iff] at hacc
    rw [get_queryset_mem_iff]
    unfold canAccessTaskSpec at hacc
    rcases hacc with h | h | h | h | h | h <;> simp_all <;> tauto
  · intro hr hmem
    rw [get_queryset_mem_iff] at hmem
    rw [can_be_accessed_by_iff]
    unfold canAccessTaskSpec
    rcases hmem with h | h | h <;> simp_all <;> tauto

/-- C1 amended witness: for the admin user 3 the listing filter and the
evaluator agree on a concrete task. -/
theorem get_queryset_vs_evaluator_amended_witness :
    TaskListView.get_queryset_mem ⟨3, .admin⟩
        ⟨1, ⟨20, 98⟩, ⟨10, 99, [2]⟩, none, 97, .todo, false, none, none⟩ = true ↔
      Task.can_be_accessed_by
        ⟨1, ⟨20, 98⟩, ⟨10, 99, [2]⟩, none, 97, .todo, false, none, none⟩
        ⟨3, .admin⟩ = true :=
  (get_queryset_vs_evaluator_amended ⟨3, .admin⟩
      ⟨1, ⟨20, 98⟩, ⟨10, 99, [2]⟩, none, 97, .todo, false, none, none⟩).1 rfl

/-- C4: for an employee the task listing filter includes a task exactly when
the employee is its creator or assignee AND a member of the task's team;
in particular, without team membership no such task is listed. -/
theorem employee_queryset_requires_membership (u : User) (t : Task) :
    u.role = Role.employee →
    (TaskListView.get_queryset_mem u t = true ↔
      ((u.id = t.createdById ∨ t.assignedToId = some u.id) ∧
        t.team.is_member u = true)) ∧
    (t.team.is_member u = false → TaskListView.get_queryset_mem u t = false) := by
  intro hr
  constructor
  · rw [get_queryset_mem_iff]
    simp [hr]
    tauto
  · intro hnm
    rcases h : TaskListView.get_queryset_mem u t with _ | _
    · rfl
    · rw [get_queryset_mem_iff] at h
      simp [hr, hnm] at h

/-- C4 witness: employee 5 created task 1 and is its assignee but is not a
member of team 10, so the listing filter excludes the task. -/
theorem employee_queryset_requires_membership_witness :
    TaskListView.get_queryset_mem ⟨5, .employee⟩
        ⟨1, ⟨20, 98⟩, ⟨10, 99, [2, 7]⟩, some 5, 5, .todo, true, none, none⟩ = false :=
  (employee_queryset_requires_membership ⟨5, .employee⟩
      ⟨1, ⟨20, 98⟩, ⟨10, 99, [2, 7]⟩, some 5, 5, .todo, true, none, none⟩ rfl).2 rfl

/-- The task transition pairs exactly as the claim enumerates them
(spec-side list, to be compared with the code's dictionary). -/
def taskTransitionPairsSpec : List (TaskStatus × TaskStatus) :=
  [(.todo, .in_progress), (.todo, .cancelled),
   (.in_progress, .review), (.in_progress, .completed), (.in_progress, .cancelled),
   (.review, .in_progress), (.review, .completed), (.review, .cancelled)]

/-- The project transition pairs exactly as the claim enumerates them
(spec-side list, to be compared with the code's dictionary). -/
def projectTransitionPairsSpec : List (ProjectStatus × ProjectStatus) :=
  [(.planning, .active), (.planning, .cancelled),
   (.active, .on_hold), (.active, .completed), (.active, .cancelled),
   (.on_hold, .active), (.on_hold, .cancelled)]

/-- C5: both `validate_status` guards accept exactly the enumerated pairs and
reject every other pair with an error naming the current and the requested
state; from `completed` or `cancelled` everything is rejected, and no status
transitions to itself. -/
theorem validate_transition_correct :
    (∀ c v : TaskStatus,
      TaskStatusUpdateSerializer.validate_status c v = Except.ok v ↔
        (c, v) ∈ taskTransitionPairsSpec) ∧
    (∀ c v : TaskStatus, (c, v) ∉ taskTransitionPairsSpec →
      TaskStatusUpdateSerializer.validate_status c v =
        Except.error
          ("Cannot transition from " ++ c.name ++ " to " ++ v.name ++ ".")) ∧
    (∀ c v : ProjectStatus,
      ProjectStatusUpdateSerializer.validate_status c v = Except.ok v ↔
        (c, v) ∈ projectTransitionPairsSpec) ∧
    (∀ c v : ProjectStatus, (c, v) ∉ projectTransitionPairsSpec →
      ProjectStatusUpdateSerializer.validate_status c v =
        Except.error
          ("Cannot transition from " ++ c.name ++ " to " ++ v.name ++ ".")) ∧
    (∀ v : TaskStatus,
      TaskStatusUpdateSerializer.validate_status TaskStatus.completed v ≠
          Except.ok v ∧
      TaskStatusUpdateSerializer.validate_status TaskStatus.cancelled v ≠
          Except.ok v) ∧
    (∀ v : ProjectStatus,
      ProjectStatusUpdateSerializer.validate_status ProjectStatus.completed v ≠
          Except.ok v ∧
      ProjectStatusUpdateSerializer.validate_status ProjectStatus.cancelled v ≠
          Except.ok v) ∧
    (∀ c : TaskStatus,
      TaskStatusUpdateSerializer.validate_status c c ≠ Except.ok c) ∧
    (∀ c : ProjectStatus,
      ProjectStatusUpdateSerializer.validate_status c c ≠ Except.ok c) :=
  ⟨by decide, by decide, by decide, by decide,
   by decide, by decide, by decide, by decide⟩

/-- C5 witness: the rejection of the concrete pair `completed → completed`
carries the error message naming both states. -/
theorem validate_transition_correct_witness :
    TaskStatusUpdateSerializer.validate_status TaskStatus.completed
        TaskStatus.completed =
      Except.error ("Cannot transition from " ++ TaskStatus.completed.name ++
        " to " ++ TaskStatus.completed.name ++ ".") :=
  validate_transition_correct.2.1 TaskStatus.completed TaskStatus.completed
    (by decide)

/-- C6 counterexample: starting from `todo`, the accepted request sequence
`in_progress` (clock 1), `review` (clock 2), `in_progress` (clock 3) fires
the `started_at` assignment twice — `review → in_progress` is in the
transition table and re-enters `in_progress` from a different status, so
`update` overwrites `started_at` (final value `some 3`, not `some 1`). -/
theorem started_at_double_write_counterexample :
    startedAtWrites
        ⟨1, ⟨20, 98⟩, ⟨10, 99, [5]⟩, some 5, 5, .todo, true, none, none⟩
        [(.in_progress, 1), (.review, 2), (.in_progress, 3)] = 2 ∧
    runTaskStatusRequests
        ⟨1, ⟨20, 98⟩, ⟨10, 99, [5]⟩, some 5, 5, .todo, true, none, none⟩
        [(.in_progress, 1), (.review, 2), (.in_progress, 3)] =
      some ⟨1, ⟨20, 98⟩, ⟨10, 99, [5]⟩, some 5, 5, .in_progress, true, some 3, none⟩ :=
  ⟨rfl, rfl⟩

/-- C6 amended: an accepted transition to `completed` sets the completion
timestamp (task `completed_at`, project `completed_date`); an accepted task
transition into `in_progress` always comes from a different status and sets
`started_at` to the current clock — in particular the first entry sets it —
and a repeated `in_progress` request right after is rejected because
`in_progress → in_progress` is not in the table; accepted transitions to any
other status leave `started_at` unchanged.  (`started_at` is not written
exactly once along every accepted sequence: re-entry from `review` writes it
again, see the counterexample.) -/
theorem status_update_timestamps_amended
    (t t2 : Task) (p p2 : ProjectState) (v : TaskStatus) (w : ProjectStatus)
    (now m : Nat) :
    (taskStatusStep t v now = some t2 → v = TaskStatus.completed →
      t2.completedAt = some now) ∧
    (projectStatusStep p w now = some p2 → w = ProjectStatus.completed →
      p2.completedDate = some now) ∧
    (taskStatusStep t v now = some t2 → v = TaskStatus.in_progress →
      t.status ≠ TaskStatus.in_progress ∧ t2.startedAt = some now) ∧
    (taskStatusStep t v now = some t2 → v = TaskStatus.in_progress →
      taskStatusStep t2 TaskStatus.in_progress m = none) ∧
    (taskStatusStep t v now = some t2 → v ≠ TaskStatus.in_progress →
      t2.startedAt = t.startedAt) := by
  obtain ⟨tid, tproj, tteam, tass, tcr, tst, tpub, tsa, tca⟩ := t
  obtain ⟨pst, pcd⟩ := p
  refine ⟨?_, ?_, ?_, ?_, ?_⟩
  all_goals intro h hv
  · subst hv
    cases tst <;>
      simp_all [taskStatusStep, TaskStatusUpdateSerializer.validate_status,
        taskValidTransitions, TaskStatusUpdateSerializer.update] <;>
      (subst h ; rfl)
  · subst hv
    cases pst <;>
      simp_all [projectStatusStep, ProjectStatusUpdateSerializer.validate_status,
        projectValidTransitions, ProjectStatusUpdateSerializer.update] <;>
      (subst h ; rfl)
  · subst hv
    cases tst <;>
      simp_all [taskStatusStep, TaskStatusUpdateSerializer.validate_status,
        taskValidTransitions, TaskStatusUpdateSerializer.update] <;>
      (subst h ; rfl)
  · subst hv
    cases tst <;>
      simp_all [taskStatusStep, TaskStatusUpdateSerializer.validate_status,
        taskValidTransitions, TaskStatusUpdateSerializer.update] <;>
      (subst h ; rfl)
  · cases tst <;> cases v <;>
      simp_all [taskStatusStep, TaskStatusUpdateSerializer.validate_status,
        taskValidTransitions, TaskStatusUpdateSerializer.update] <;>
      (subst h ; rfl)

/-- C6 amended witness: the accepted first entry `todo → in_progress` at
clock 1 comes from a non-`in_progress` status and sets `started_at := 1`. -/
theorem status_update_timestamps_amended_witness :
    (⟨1, ⟨20, 98⟩, ⟨10, 99, [5]⟩, some 5, 5, .todo, true, none, none⟩ : Task).status ≠
        TaskStatus.in_progress ∧
    (⟨1, ⟨20, 98⟩, ⟨10, 99, [5]⟩, some 5, 5, .in_progress, true, some 1,
        none⟩ : Task).startedAt = some 1 :=
  (status_update_timestamps_amended
      ⟨1, ⟨20, 98⟩, ⟨10, 99, [5]⟩, some 5, 5, .todo, true, none, none⟩
      ⟨1, ⟨20, 98⟩, ⟨10, 99, [5]⟩, some 5, 5, .in_progress, true, some 1, none⟩
      ⟨.planning, none⟩ ⟨.planning, none⟩
      TaskStatus.in_progress ProjectStatus.completed 1 2).2.2.1 rfl rfl

/-- C7: the role-update endpoint (behind `IsAdminUser`) performs the update
exactly when the actor is an admin and the request is not an admin
self-demotion; an admin demoting themselves to manager is always denied with
the target role left unchanged; an admin changing any other user is allowed
and the target's role becomes the requested one. -/
theorem update_user_role_correct (actor target : User) (newRole : Role) :
    ((UpdateUserRoleView.patch actor target newRole).1 = true ↔
      (actor.role = Role.admin ∧ ¬(actor.id = target.id ∧ newRole ≠ Role.admin))) ∧
    (actor.role = Role.admin → actor.id = target.id → newRole ≠ Role.admin →
      UpdateUserRoleView.patch actor target newRole = (false, target.role)) ∧
    (actor.role = Role.admin → actor.id ≠ target.id →
      UpdateUserRoleView.patch actor target newRole = (true, newRole)) ∧
    (actor.role ≠ Role.admin →
      UpdateUserRoleView.patch actor target newRole = (false, target.role)) := by
  unfold UpdateUserRoleView.patch User.has_role
  by_cases h1 : actor.role = Role.admin <;>
    by_cases h2 : actor.id = target.id <;>
    by_cases h3 : newRole = Role.admin <;>
    simp_all [beq_iff_eq]

/-- C7 witness: admin 1 demoting themselves to manager is denied and keeps
the admin role; admin 1 promoting user 2 to manager goes through. -/
theorem update_user_role_correct_witness :
    UpdateUserRoleView.patch ⟨1, .admin⟩ ⟨1, .admin⟩ Role.manager =
      (false, Role.admin) ∧
    UpdateUserRoleView.patch ⟨1, .admin⟩ ⟨2, .employee⟩ Role.manager =
      (true, Role.manager) :=
  ⟨(update_user_role_correct ⟨1, .admin⟩ ⟨1, .admin⟩ Role.manager).2.1
      rfl rfl (by decide),
   (update_user_role_correct ⟨1, .admin⟩ ⟨2, .employee⟩ Role.manager).2.2.1
      rfl (by decide)⟩

/-- C8: both assignment validators deny an employee naming a target other
than themselves (for the detail serializer, other than themselves and the
current assignee), whatever the target's team membership; and both deny any
target who is not a member of the task's team (for the create serializer,
when the named team resolves). -/
theorem validate_assigned_to_correct (requestUser v : User) (t : Task)
    (team : Team) (tmo : Option Team) :
    (requestUser.role = Role.employee → v.id ≠ requestUser.id →
      t.assignedToId ≠ some v.id →
      TaskDetailSerializer.validate_assigned_to_id requestUser t (some v) = false) ∧
    (t.team.is_member v = false →
      TaskDetailSerializer.validate_assigned_to_id requestUser t (some v) = false) ∧
    (requestUser.role = Role.employee → v.id ≠ requestUser.id →
      TaskCreateSerializer.validate_assigned_to_id requestUser tmo (some v) = false) ∧
    (team.is_member v = false →
      TaskCreateSerializer.validate_assigned_to_id requestUser (some team) (some v) =
        false) := by
  unfold TaskDetailSerializer.validate_assigned_to_id
    TaskCreateSerializer.validate_assigned_to_id User.has_role
  refine ⟨?_, ?_, ?_, ?_⟩
  · intro hr hne hass
    cases h : t.assignedToId <;>
      simp_all [beq_iff_eq] <;>
      (intro hvv ; exact absurd hvv.symm hass)
  · intro hnm
    simp [hnm]
  · intro hr hne
    cases tmo <;> simp_all [beq_iff_eq]
  · intro hnm
    simp [hnm]

/-- C8 witness: employee 3 naming user 4 (not the current assignee 9) is
rejected by both validators even though 4 is a team member; and a manager
naming non-member 6 is rejected by both. -/
theorem validate_assigned_to_correct_witness :
    TaskDetailSerializer.validate_assigned_to_id ⟨3, .employee⟩
        ⟨1, ⟨20, 98⟩, ⟨10, 99, [3, 4]⟩, some 9, 5, .todo, true, none, none⟩
        (some ⟨4, .employee⟩) = false ∧
    TaskCreateSerializer.validate_assigned_to_id ⟨3, .employee⟩
        (some ⟨10, 99, [3, 4]⟩) (some ⟨4, .employee⟩) = false ∧
    TaskDetailSerializer.validate_assigned_to_id ⟨2, .manager⟩
        ⟨1, ⟨20, 98⟩, ⟨10, 99, [3, 4]⟩, some 9, 5, .todo, true, none, none⟩
        (some ⟨6, .employee⟩) = false ∧
    TaskCreateSerializer.validate_assigned_to_id ⟨2, .manager⟩
        (some ⟨10, 99, [3, 4]⟩) (some ⟨6, .employee⟩) = false :=
  ⟨(validate_assigned_to_correct ⟨3, .employee⟩ ⟨4, .employee⟩
      ⟨1, ⟨20, 98⟩, ⟨10, 99, [3, 4]⟩, some 9, 5, .todo, true, none, none⟩
      ⟨10, 99, [3, 4]⟩ (some ⟨10, 99, [3, 4]⟩)).1 rfl (by decide) (by decide),
   (validate_assigned_to_correct ⟨3, .employee⟩ ⟨4, .employee⟩
      ⟨1, ⟨20, 98⟩, ⟨10, 99, [3, 4]⟩, some 9, 5, .todo, true, none, none⟩
      ⟨10, 99, [3, 4]⟩ (some ⟨10, 99, [3, 4]⟩)).2.2.1 rfl (by decide),
   (validate_assigned_to_correct ⟨2, .manager⟩ ⟨6, .employee⟩
      ⟨1, ⟨20, 98⟩, ⟨10, 99, [3, 4]⟩, some 9, 5, .todo, true, none, none⟩
      ⟨10, 99, [3, 4]⟩ (some ⟨10, 99, [3, 4]⟩)).2.1 rfl,
   (validate_assigned_to_correct ⟨2, .manager⟩ ⟨6, .employee⟩
      ⟨1, ⟨20, 98⟩, ⟨10, 99, [3, 4]⟩, some 9, 5, .todo, true, none, none⟩
      ⟨10, 99, [3, 4]⟩ (some ⟨10, 99, [3, 4]⟩)).2.2.2 rfl⟩

/-- C9: the cited evaluators do NOT all fail closed.
`RoleBasedPermission.has_object_permission` reaches its final `return True`
and allows: a manager (id 2) acting on an object with no recognized
ownership attribute at all, and an employee (id 5) with a `destroy` action
on an object owned by a different user (id 7).  Likewise
`TaskCreateSerializer.validate_assigned_to_id` accepts a non-member
assignee when the team cannot be resolved (`except Team.DoesNotExist:
pass`).  The model-level evaluator `Task.can_be_accessed_by`, by contrast,
does fail closed (last conjunct: with every clause false it denies). -/
theorem fail_closed_violated :
    (RoleBasedPermission.has_object_permission ⟨2, .manager⟩
        ViewAction.updateAction ⟨none, none, none, none, none, none⟩ = true) ∧
    (RoleBasedPermission.has_object_permission ⟨5, .employee⟩
        ViewAction.destroyAction ⟨some 7, none, none, none, none, some 7⟩ = true) ∧
    (TaskCreateSerializer.validate_assigned_to_id ⟨4, .manager⟩ none
        (some ⟨6, .employee⟩) = true) ∧
    (Task.can_be_accessed_by
        ⟨1, ⟨20, 98⟩, ⟨10, 99, []⟩, none, 97, .todo, true, none, none⟩
        ⟨5, .employee⟩ = false) :=
  ⟨rfl, rfl, rfl, rfl⟩

/-- C10: the "my tasks" listing contains exactly the tasks assigned to the
requester and the "created tasks" listing exactly those they created, with
no team-membership, visibility or role condition; an employee assignee or
creator who is not a team member still gets the task here although the main
listing omits it. -/
theorem my_and_created_tasks_correct (u : User) (t : Task) :
    (MyTasksView.get_queryset_mem u t = true ↔ t.assignedToId = some u.id) ∧
    (CreatedTasksView.get_queryset_mem u t = true ↔ t.createdById = u.id) ∧
    (u.role = Role.employee → t.assignedToId = some u.id →
      t.team.is_member u = false →
      MyTasksView.get_queryset_mem u t = true ∧
      TaskListView.get_queryset_mem u t = false) ∧
    (u.role = Role.employee → t.createdById = u.id →
      t.team.is_member u = false →
      CreatedTasksView.get_queryset_mem u t = true ∧
      TaskListView.get_queryset_mem u t = false) := by
  have hmain : ∀ hr : u.role = Role.employee, t.team.is_member u = false →
      TaskListView.get_queryset_mem u t = false := by
    intro hr hnm
    cases h : TaskListView.get_queryset_mem u t
    · rfl
    · rw [get_queryset_mem_iff] at h
      simp [hr, hnm] at h
  refine ⟨?_, ?_, ?_, ?_⟩
  · unfold MyTasksView.get_queryset_mem
    simp
  · unfold CreatedTasksView.get_queryset_mem
    simp [beq_iff_eq]
  · intro hr hass hnm
    refine ⟨?_, hmain hr hnm⟩
    unfold MyTasksView.get_queryset_mem
    simp [hass]
  · intro hr hcr hnm
    refine ⟨?_, hmain hr hnm⟩
    unfold CreatedTasksView.get_queryset_mem
    simp [beq_iff_eq, hcr]

/-- C10 witness: employee 5 is the assignee and the creator of a task whose
team has no members, so the task shows up in both personal listings while
the main task listing excludes it. -/
theorem my_and_created_tasks_correct_witness :
    MyTasksView.get_queryset_mem ⟨5, .employee⟩
        ⟨1, ⟨20, 98⟩, ⟨10, 99, []⟩, some 5, 5, .todo, true, none, none⟩ = true ∧
    TaskListView.get_queryset_mem ⟨5, .employee⟩
        ⟨1, ⟨20, 98⟩, ⟨10, 99, []⟩, some 5, 5, .todo, true, none, none⟩ = false :=
  (my_and_created_tasks_correct ⟨5, .employee⟩
      ⟨1, ⟨20, 98⟩, ⟨10, 99, []⟩, some 5, 5, .todo, true, none, none⟩).2.2.1
    rfl rfl rfl

end Backend
